import Mathlib

/-!
Shallow embedding of the DMAF recognition-result caching / file-processing
state machine (src/dmaf/database.py, watcher.py, alerting/alert_manager.py,
face_recognition/factory.py, face_recognition/dlib_backend.py,
face_recognition/insightface_backend.py, known_refresh.py).

Modelling conventions:
* SQLite tables are Lean lists kept in insertion order; `AUTOINCREMENT` ids are
  issued from per-table counters carried in the state.
* Python floats are modelled as rationals.
* Python `datetime` objects are modelled as an inductive distinguishing naive
  from timezone-aware values, because the two cannot be subtracted.
* Serialized blobs (`pickle.dumps` output) are modelled as either a good
  payload or an externally corrupted blob; deserialization of a corrupted blob
  fails (the model of the caught `UnpicklingError`/`JSONDecodeError`).
* SQLite `ORDER BY` on a single computed column is modelled as a stable merge
  sort over the pre-sort row order.
-/

namespace DMAF

/-- A row of the `files` table (one FileRecord). `path` is the dedup key and is
UNIQUE; `matched`/`uploaded` are the 0/1 integers the schema stores. -/
structure FileRecord where
  path : String
  sha256 : Option String
  matched : Nat
  uploaded : Nat
  match_score : Option ℚ
  matched_person : Option String
deriving Repr, DecidableEq

/-- A row of `borderline_events`. `alerted` is the 0/1 integer flag. -/
structure BorderlineEvent where
  id : Nat
  file_path : String
  match_score : ℚ
  tolerance : ℚ
  matched_person : Option String
  alerted : Nat
deriving Repr, DecidableEq

/-- A row of `error_events`. -/
structure ErrorEvent where
  id : Nat
  error_type : String
  error_message : String
  file_path : Option String
  alerted : Nat
deriving Repr, DecidableEq

/-- A row of `alert_batches`. `sent_ts` is the wall-clock time (in minutes) at
which the row was written; SQLite `CURRENT_TIMESTAMP` stores it as a naive
UTC string. -/
structure AlertBatch where
  alert_type : String
  recipient : String
  event_count : Nat
  sent_ts : ℤ
deriving Repr, DecidableEq

/-- A row of `known_refresh_history`. -/
structure RefreshRecord where
  person_name : String
  source_file_path : String
  target_file_path : String
  match_score : ℚ
  target_score : ℚ
deriving Repr, DecidableEq

/-- The embedding payload stored in the cache: the mapping
{person name -> list of embedding vectors} together with the people list
(`people_json`). Embedding vectors are lists of rationals. -/
def Payload : Type := (List (String × List (List ℚ))) × List String
deriving instance DecidableEq, Repr for Payload

/-- The `encodings_blob` column: either a faithfully serialized payload or an
externally corrupted blob that fails to deserialize. -/
inductive CacheBlob where
  | good (payload : Payload)
  | corrupt
deriving Repr, DecidableEq

/-- `pickle.loads` + `json.loads` under the `except (UnpicklingError,
JSONDecodeError)` handler of `Database.get_cached_embeddings`: a good blob
round-trips, a corrupted one yields no result. -/
def deserialize : CacheBlob → Option Payload
  | .good p => some p
  | .corrupt => none

/-- A row of `embedding_cache`, minus the key column. -/
structure CacheEntry where
  files_hash : String
  blob : CacheBlob
deriving Repr, DecidableEq

/-- The SQLite database state (`Database` in database.py): one list per table,
plus the AUTOINCREMENT counters for the two event tables. -/
structure DBState where
  files : List FileRecord
  borderline_events : List BorderlineEvent
  error_events : List ErrorEvent
  alert_batches : List AlertBatch
  known_refresh_history : List RefreshRecord
  embedding_cache : List (String × CacheEntry)
  next_borderline_id : Nat
  next_error_id : Nat
deriving Repr, DecidableEq

/-- The empty database (fresh schema). -/
def DBState.empty : DBState :=
  ⟨[], [], [], [], [], [], 0, 0⟩

namespace Database

/-- `Database.seen`: `SELECT 1 FROM files WHERE path=?` is non-empty. -/
def seen (st : DBState) (path : String) : Bool :=
  st.files.any (fun r => r.path == path)

/-- `Database.add_file`: `INSERT OR IGNORE INTO files(path, sha256, matched,
uploaded)`; the UNIQUE constraint on `path` makes the insert a no-op when a
row with this path exists. -/
def add_file (st : DBState) (path : String) (sha256 : Option String)
    (matched uploaded : Nat) : DBState :=
  if st.files.any (fun r => r.path == path) then st
  else { st with files := st.files ++ [⟨path, sha256, matched, uploaded, none, none⟩] }

/-- `Database.add_file_with_score`: `INSERT OR IGNORE` carrying the score
columns as well. -/
def add_file_with_score (st : DBState) (path : String) (sha256 : Option String)
    (matched uploaded : Nat) (match_score : Option ℚ)
    (matched_person : Option String) : DBState :=
  if st.files.any (fun r => r.path == path) then st
  else { st with files :=
          st.files ++ [⟨path, sha256, matched, uploaded, match_score, matched_person⟩] }

/-- `Database.mark_uploaded`: `UPDATE files SET uploaded=1 WHERE path=?`. -/
def mark_uploaded (st : DBState) (path : String) : DBState :=
  { st with files := st.files.map (fun r =>
      if r.path == path then { r with uploaded := 1 } else r) }

/-- `Database.add_borderline_event`: plain INSERT, `alerted` defaults to 0,
the id comes from AUTOINCREMENT. -/
def add_borderline_event (st : DBState) (file_path : String) (match_score : ℚ)
    (tolerance : ℚ) (matched_person : Option String) : DBState :=
  { st with
    borderline_events := st.borderline_events ++
      [⟨st.next_borderline_id, file_path, match_score, tolerance, matched_person, 0⟩]
    next_borderline_id := st.next_borderline_id + 1 }

/-- `Database.add_error_event`: plain INSERT, `alerted` defaults to 0. -/
def add_error_event (st : DBState) (error_type error_message : String)
    (file_path : Option String) : DBState :=
  { st with
    error_events := st.error_events ++
      [⟨st.next_error_id, error_type, error_message, file_path, 0⟩]
    next_error_id := st.next_error_id + 1 }

/-- `Database.get_cached_embeddings`: look the row up by `cache_key`; absent
row, stale `files_hash`, or a blob that fails to deserialize all yield
`None`. -/
def get_cached_embeddings (st : DBState) (cache_key files_hash : String) :
    Option Payload :=
  match st.embedding_cache.find? (fun p => p.1 == cache_key) with
  | none => none
  | some (_, e) =>
    if e.files_hash ≠ files_hash then none
    else deserialize e.blob

/-- `Database.save_cached_embeddings`: `INSERT OR REPLACE` on the UNIQUE
`cache_key`, storing a freshly serialized (hence good) blob. -/
def save_cached_embeddings (st : DBState) (cache_key files_hash : String)
    (payload : Payload) : DBState :=
  { st with embedding_cache :=
      st.embedding_cache.filter (fun p => !(p.1 == cache_key)) ++
        [(cache_key, ⟨files_hash, .good payload⟩)] }

/-- The un-alerted borderline events, oldest first
(`WHERE alerted=0 ORDER BY created_ts ASC`; insertion order is creation
order). -/
def pending_borderline (st : DBState) : List BorderlineEvent :=
  st.borderline_events.filter (fun e => e.alerted == 0)

/-- The un-alerted error events, oldest first. -/
def pending_error (st : DBState) : List ErrorEvent :=
  st.error_events.filter (fun e => e.alerted == 0)

/-- Which event table `Database.mark_events_alerted` targets. -/
inductive AlertKind where
  | borderline
  | error
deriving Repr, DecidableEq

/-- `Database.mark_events_alerted`: `UPDATE <table> SET alerted=1 WHERE id IN
(...)`. (The early return on an empty id list is semantically the same
update.) -/
def mark_events_alerted (st : DBState) (ids : List Nat) (kind : AlertKind) :
    DBState :=
  match kind with
  | .borderline =>
    { st with borderline_events := st.borderline_events.map (fun e =>
        if e.id ∈ ids then { e with alerted := 1 } else e) }
  | .error =>
    { st with error_events := st.error_events.map (fun e =>
        if e.id ∈ ids then { e with alerted := 1 } else e) }

/-- `Database.record_alert_sent`: INSERT into `alert_batches`;
`CURRENT_TIMESTAMP` stores the current time `now` as a naive UTC string. -/
def record_alert_sent (st : DBState) (alert_type recipient : String)
    (event_count : Nat) (now : ℤ) : DBState :=
  { st with alert_batches :=
      st.alert_batches ++ [⟨alert_type, recipient, event_count, now⟩] }

end Database

/-- A Firestore document of the `dmaf_files` collection. Documents are keyed
by a (truncated) hash of the path; the hash is modelled as the path itself,
collisions being out of scope. -/
structure FirestoreDoc where
  path : String
  sha256 : Option String
  matched : Nat
  uploaded : Nat
deriving Repr, DecidableEq

/-- The Firestore collection state. -/
abbrev FirestoreState : Type := List FirestoreDoc

namespace FirestoreDatabase

/-- `FirestoreDatabase.seen`: the document for the hashed path exists. -/
def seen (fs : FirestoreState) (path : String) : Bool :=
  fs.any (fun d => d.path == path)

/-- `FirestoreDatabase.add_file`: `document(...).set({...}, merge=True)`.
With `merge=True` Firestore overwrites every field given in the payload and
keeps only fields NOT in the payload; since the payload carries `uploaded`,
an existing document's `uploaded` field is overwritten by the argument. (The
source comment claims this behaves "like INSERT OR IGNORE".) -/
def add_file (fs : FirestoreState) (path : String) (sha256 : Option String)
    (matched uploaded : Nat) : FirestoreState :=
  if fs.any (fun d => d.path == path) then
    fs.map (fun d =>
      if d.path == path then ⟨path, sha256, matched, uploaded⟩ else d)
  else fs ++ [⟨path, sha256, matched, uploaded⟩]

/-- `FirestoreDatabase.mark_uploaded`: `document(...).update({"uploaded": 1})`. -/
def mark_uploaded (fs : FirestoreState) (path : String) : FirestoreState :=
  fs.map (fun d => if d.path == path then { d with uploaded := 1 } else d)

end FirestoreDatabase

/-- A Python `datetime`: naive (no tzinfo) or timezone-aware. SQLite
`CURRENT_TIMESTAMP` strings parse to naive values; `datetime.now(timezone.utc)`
is aware. The payload is the instant in minutes. -/
inductive PyDatetime where
  | naive (t : ℤ)
  | aware (t : ℤ)
deriving Repr, DecidableEq

/-- Python datetime subtraction: subtracting a naive from an aware datetime
(or vice versa) raises `TypeError`. -/
def pySub : PyDatetime → PyDatetime → Except String ℤ
  | .naive a, .naive b => .ok (a - b)
  | .aware a, .aware b => .ok (a - b)
  | _, _ => .error "TypeError: cannot subtract offset-naive and offset-aware datetimes"

namespace Database

/-- `Database.get_last_alert_time`: `SELECT MAX(sent_ts) FROM alert_batches`,
then `datetime.fromisoformat` on the stored string. The stored string has no
UTC offset, so the parsed value is naive. -/
def get_last_alert_time (st : DBState) : Option PyDatetime :=
  match st.alert_batches.map (fun b => b.sent_ts) with
  | [] => none
  | t :: ts => some (.naive (ts.foldl max t))

end Database

/-- The alerting configuration (`AlertSettings`): whether SMTP credentials are
configured, the recipients, and the batch interval in minutes. -/
structure AlertConfig where
  smtp_configured : Bool
  recipients : List String
  batch_interval_minutes : ℤ
deriving Repr, DecidableEq

namespace AlertManager

/-- `AlertManager.should_send_alert`. `now` is the current UTC wall clock in
minutes; the source builds it as `datetime.now(timezone.utc)`, an aware
value, and subtracts the (naive) stored last-alert time from it. -/
def should_send_alert (st : DBState) (cfg : AlertConfig) (now : ℤ) :
    Except String Bool :=
  match Database.get_last_alert_time st with
  | none =>
    .ok (!(Database.pending_borderline st).isEmpty
          || !(Database.pending_error st).isEmpty)
  | some last =>
    match pySub (.aware now) last with
    | .error e => .error e
    | .ok d =>
      if d < cfg.batch_interval_minutes then .ok false
      else
        .ok (!(Database.pending_borderline st).isEmpty
              || !(Database.pending_error st).isEmpty)

/-- `AlertManager.send_pending_alerts`. `email_ok` is the boolean outcome of
`EmailSender.send_email` (the opaque transport); `now` is the wall clock at
which `record_alert_sent` stamps the batch rows. -/
def send_pending_alerts (st : DBState) (cfg : AlertConfig) (email_ok : Bool)
    (now : ℤ) : Nat × DBState :=
  if ¬cfg.smtp_configured then (0, st)
  else
    let bs := Database.pending_borderline st
    let es := Database.pending_error st
    if bs.isEmpty && es.isEmpty then (0, st)
    else
      let total := bs.length + es.length
      let ty :=
        if !bs.isEmpty && !es.isEmpty then "combined"
        else if !es.isEmpty then "error"
        else "borderline"
      if ¬email_ok then (0, st)
      else
        let st1 := Database.mark_events_alerted st (bs.map (fun e => e.id)) .borderline
        let st2 := Database.mark_events_alerted st1 (es.map (fun e => e.id)) .error
        let st3 := cfg.recipients.foldl
          (fun s r => Database.record_alert_sent s ty r total now) st2
        (total, st3)

end AlertManager

/-- A result row of the `get_refresh_candidates` query. -/
structure CandidateRow where
  path : String
  match_score : ℚ
  sha256 : Option String
  score_delta : ℚ
deriving Repr, DecidableEq

namespace Database

/-- The `LEFT JOIN known_refresh_history r ON f.path = r.source_file_path`:
each file row is paired with every matching history row, or with `none` when
no history row matches. -/
def leftJoinHistory (files : List FileRecord) (hist : List RefreshRecord) :
    List (FileRecord × Option RefreshRecord) :=
  files.flatMap (fun f =>
    let ms := hist.filter (fun r => r.source_file_path == f.path)
    if ms.isEmpty then [(f, none)] else ms.map (fun r => (f, some r)))

/-- The WHERE clause of `get_refresh_candidates` (`matched=1 AND uploaded=1
AND matched_person=? AND match_score IS NOT NULL AND r.id IS NULL`). -/
def refreshWhere (person : String) :
    FileRecord × Option RefreshRecord → Bool :=
  fun fr =>
    fr.1.matched == 1 && fr.1.uploaded == 1 &&
      fr.1.matched_person == some person && fr.1.match_score.isSome &&
      fr.2.isNone

/-- The SELECT list of `get_refresh_candidates`, including the computed
`ABS(f.match_score - ?) AS score_delta`. -/
def toCandidateRow (target : ℚ) (f : FileRecord) : CandidateRow :=
  ⟨f.path, f.match_score.getD 0, f.sha256, |f.match_score.getD 0 - target|⟩

/-- Row comparison for `ORDER BY score_delta ASC`. -/
def rowLE (a b : CandidateRow) : Prop :=
  a.score_delta ≤ b.score_delta

instance : DecidableRel rowLE :=
  fun a b => inferInstanceAs (Decidable (a.score_delta ≤ b.score_delta))

/-- `Database.get_refresh_candidates`: LEFT JOIN, filter, project, then sort
ascending by `score_delta`. `ORDER BY` is modelled as a stable sort over the
pre-sort row order (files in insertion order). -/
def get_refresh_candidates (st : DBState) (person : String) (target : ℚ) :
    List CandidateRow :=
  List.insertionSort rowLE
    (((leftJoinHistory st.files st.known_refresh_history).filter
        (refreshWhere person)).map (fun fr => toCandidateRow target fr.1))

end Database

/-- A refresh candidate as `KnownRefreshManager.find_candidates` returns it. -/
structure RefreshCandidate where
  person_name : String
  source_path : String
  match_score : ℚ
  score_delta : ℚ
deriving Repr, DecidableEq

namespace KnownRefreshManager

/-- `KnownRefreshManager.find_candidates`: wrap each query row in a
`RefreshCandidate`, preserving the query order. `target` is the configured
`target_score`. -/
def find_candidates (st : DBState) (person : String) (target : ℚ) :
    List RefreshCandidate :=
  (Database.get_refresh_candidates st person target).map (fun c =>
    ⟨person, c.path, c.match_score, c.score_delta⟩)

end KnownRefreshManager

/-- What `process_fn` (the recognition callback) returned for an image:
the matched flag, the matched people, and the per-person best-similarity
scores in Python dict (insertion) order. An empty `scores` models the
two-element return shape, which the pipeline widens with `scores = {}`. -/
structure RecogResult where
  matched : Bool
  who : List String
  scores : List (String × ℚ)
deriving Repr, DecidableEq

/-- `max(scores.values())` for a non-empty dict, `None` otherwise. -/
def dictMaxVal : List (String × ℚ) → Option ℚ
  | [] => none
  | kv :: rest => some (rest.foldl (fun m p => max m p.2) kv.2)

/-- `max(scores, key=scores.get)`: the first key (in dict order) attaining
the maximal value — Python `max` keeps the incumbent on ties. -/
def dictArgmax : List (String × ℚ) → Option String
  | [] => none
  | kv :: rest =>
    some ((rest.foldl (fun best p => if p.2 > best.2 then p else best) kv).1)

/-- The pipeline configuration slice `_process_image_file` reads:
`cfg.recognition.tolerance`, `cfg.alerting.borderline_offset`, the two delete
flags, and whether `handler.alert_manager` is set. -/
structure PipelineConfig where
  tolerance : ℚ
  borderline_offset : ℚ
  delete_source_after_upload : Bool
  delete_unmatched_after_processing : Bool
  has_alert_manager : Bool
deriving Repr, DecidableEq

/-- One discovered media item, together with the outcome of every external
capability the pipeline invokes on it: whether `Image.open` succeeds, what
`process_fn` returns, and whether `handler.on_match` (the upload) raises. -/
structure MediaItem where
  dedup_key : String
  sha256 : String
  decode_ok : Bool
  recog : RecogResult
  upload_ok : Bool
deriving Repr, DecidableEq

/-- The externally visible calls the pipeline makes, in order. -/
inductive Effect where
  | recognize
  | uploadAttempt
  | deleteSource
  | deleteUnmatched
deriving Repr, DecidableEq

/-- The borderline block of `_process_image_file`: when an alert manager is
wired up, a best score exists, and the item did not match, record a
BorderlineEvent exactly when the best score lies in
`[threshold - borderline_offset, threshold)` with `threshold = 1 -
tolerance`. -/
def borderline_check (cfg : PipelineConfig) (item : MediaItem)
    (st : DBState) : DBState :=
  match dictMaxVal item.recog.scores with
  | some s =>
    if cfg.has_alert_manager && !item.recog.matched &&
        decide ((1 - cfg.tolerance) - cfg.borderline_offset ≤ s) &&
        decide (s < 1 - cfg.tolerance) then
      Database.add_borderline_event st item.dedup_key s cfg.tolerance
        (dictArgmax item.recog.scores)
    else st
  | none => st

/-- `_process_image_file` (watcher.py): decode, recognize, borderline
bookkeeping, persist, then the matched/unmatched side effect. Returns
`(was_matched, had_error)` plus the updated state and the effect trace; a
decode failure raises out of the function (nothing is persisted). The upload
exception is caught inside: it sets `had_error`, records an `upload`
ErrorEvent, and the function still returns normally. -/
def _process_image_file (cfg : PipelineConfig) (item : MediaItem)
    (st : DBState) : Except String ((Bool × Bool) × DBState × List Effect) :=
  if ¬item.decode_ok then .error "image decode failed"
  else
    let matched := item.recog.matched
    let best_score := dictMaxVal item.recog.scores
    let best_person := dictArgmax item.recog.scores
    let st1 := borderline_check cfg item st
    let st2 := Database.add_file_with_score st1 item.dedup_key
      (some item.sha256) (if matched then 1 else 0) 0 best_score
      (if matched then best_person else none)
    if matched then
      if item.upload_ok then
        .ok ((true, false), st2,
          [.recognize, .uploadAttempt] ++
            (if cfg.delete_source_after_upload then [.deleteSource] else []))
      else
        let st3 :=
          if cfg.has_alert_manager then
            Database.add_error_event st2 "upload" "upload failed"
              (some item.dedup_key)
          else st2
        .ok ((true, true), st3, [.recognize, .uploadAttempt])
    else
      .ok ((false, false), st2,
        [.recognize] ++
          (if cfg.delete_unmatched_after_processing then [.deleteUnmatched]
           else []))

/-- The running tallies of `scan_and_process_once`. -/
structure ScanCounters where
  new_files : Nat
  processed : Nat
  matched : Nat
  errors : Nat
deriving Repr, DecidableEq

/-- The per-item body of the scan loop in `scan_and_process_once`: skip seen
keys entirely, otherwise count the item as new f and run
`_process_image_file` under the try/except that tallies errors and records a
`processing` ErrorEvent on a raised exception. -/
def scanStep (cfg : PipelineConfig)
    (acc : DBState × ScanCounters × List Effect) (item : MediaItem) :
    DBState × ScanCounters × List Effect :=
  let (st, c, tr) := acc
  if Database.seen st item.dedup_key then acc
  else
    let c1 := { c with new_files := c.new_files + 1 }
    match _process_image_file cfg item st with
    | .ok ((m, had_error), st1, tr1) =>
      (st1,
        { c1 with
          processed := c1.processed + 1
          matched := c1.matched + (if m then 1 else 0)
          errors := c1.errors + (if had_error then 1 else 0) },
        tr ++ tr1)
    | .error msg =>
      (if cfg.has_alert_manager then
          Database.add_error_event st "processing" msg (some item.dedup_key)
        else st,
        { c1 with errors := c1.errors + 1 }, tr)

/-- One scan source: a GCS prefix whose listing may fail, or a local
directory that may not exist. Items already carry the extension/file-type
filtering the loop applies before the seen check. -/
inductive ScanSource where
  | gcsDir (listing : Except String (List MediaItem))
  | localDir (dirExists : Bool) (items : List MediaItem)

/-- The per-source body of `scan_and_process_once`: a failed GCS listing
counts one error and moves on (no ErrorEvent is recorded for it); a missing
local directory is skipped with a warning only. -/
def scanSource (cfg : PipelineConfig)
    (acc : DBState × ScanCounters × List Effect) (src : ScanSource) :
    DBState × ScanCounters × List Effect :=
  match src with
  | .gcsDir (.error _) =>
    let (st, c, tr) := acc
    (st, { c with errors := c.errors + 1 }, tr)
  | .gcsDir (.ok items) => items.foldl (scanStep cfg) acc
  | .localDir false _ => acc
  | .localDir true items => items.foldl (scanStep cfg) acc

/-- The `ScanResult` dataclass. `uploaded` is an `int` in the source but is
computed as `matched - errors`, so it is modelled as an integer. -/
structure ScanResult where
  new_files : Nat
  processed : Nat
  matched : Nat
  uploaded : ℤ
  errors : Nat
  success : Bool
deriving Repr, DecidableEq

/-- `scan_and_process_once`: fold the scan loop over all sources and build
the summary, with `uploaded = matched - errors` and
`success = (errors == 0 and processed == new_files)`. -/
def scan_and_process_once (cfg : PipelineConfig) (srcs : List ScanSource)
    (st : DBState) : ScanResult × DBState × List Effect :=
  let (st1, c, tr) := srcs.foldl (scanSource cfg) (st, ⟨0, 0, 0, 0⟩, [])
  (⟨c.new_files, c.processed, c.matched, (c.matched : ℤ) - (c.errors : ℤ),
      c.errors, c.errors == 0 && c.processed == c.new_files⟩,
    st1, tr)

/-- The 2-or-3 tuple `best_match` returns: `(matched, who)` or
`(matched, who, scores)`. -/
inductive BMResult where
  | pair (matched : Bool) (who : List String)
  | triple (matched : Bool) (who : List String) (scores : List (String × ℚ))
deriving Repr, DecidableEq

/-- A face the dlib backend detected: the `(top, right, bottom, left)` box
from `face_recognition.face_locations` and the encoding
`face_recognition.face_encodings` produces for it, as an opaque token. -/
structure DlibFace where
  top : ℤ
  right : ℤ
  bottom : ℤ
  left : ℤ
  enc : Nat
deriving Repr, DecidableEq

/-- Python dict lookup on the accumulating `scores` dict. -/
def dictGet (d : List (String × ℚ)) (k : String) : Option ℚ :=
  (d.find? (fun p => p.1 == k)).map (fun p => p.2)

/-- Python dict assignment `d[k] = v`: overwrite in place if the key exists
(keeping its position), append otherwise. -/
def dictSet (d : List (String × ℚ)) (k : String) (v : ℚ) :
    List (String × ℚ) :=
  if d.any (fun p => p.1 == k) then
    d.map (fun p => if p.1 == k then (k, v) else p)
  else d ++ [(k, v)]

/-- The minimum of a distance list (`np.min(distances)`); the callers only use
it on non-empty lists. -/
def listMin : List ℚ → ℚ
  | [] => 0
  | x :: xs => xs.foldl min x

namespace dlib_backend

/-- The inner per-person body of the dlib `best_match` loop for one probe
encoding `enc`: skip empty reference lists, track the per-person maximum of
`1 - min distance` in `scores` (strict `>` keeps the first occurrence), and
add the person to `matches` when `compare_faces` reports any distance within
tolerance. `dist` is the opaque `face_recognition.face_distance` capability
on encoding tokens. -/
def matchStep (dist : Nat → Nat → ℚ) (tolerance : ℚ)
    (acc : List String × List (String × ℚ)) (enc : Nat)
    (person : String) (plist : List Nat) : List String × List (String × ℚ) :=
  if plist.isEmpty then acc
  else
    let ms := acc.1
    let scores := acc.2
    let best_distance := listMin (plist.map (fun k => dist k enc))
    let best_sim := 1 - best_distance
    let scores1 :=
      match dictGet scores person with
      | none => dictSet scores person best_sim
      | some cur => if best_sim > cur then dictSet scores person best_sim
                    else scores
    let ms1 :=
      if plist.any (fun k => decide (dist k enc ≤ tolerance)) &&
          !ms.contains person then
        ms ++ [person]
      else ms
    (ms1, scores1)

/-- `dlib_backend.best_match`: filter tiny boxes, return the deterministic
no-face result when nothing remains, else run the nested loops over probe
encodings and known people and return `sorted(matches)` (the `matches` set is
modelled as a duplicate-free insertion list, sorted at the end) with the
scores dict when requested. -/
def best_match (dist : Nat → Nat → ℚ) (known : List (String × List Nat))
    (faces : List DlibFace) (tolerance : ℚ) (min_face_size : ℤ)
    (return_scores : Bool) : BMResult :=
  let locs := faces.filter (fun b =>
    decide (b.bottom - b.top ≥ min_face_size) &&
      decide (b.right - b.left ≥ min_face_size))
  if locs.isEmpty then
    if return_scores then .triple false [] [] else .pair false []
  else
    let encs := locs.map (fun f => f.enc)
    let res := encs.foldl
      (fun acc enc =>
        known.foldl (fun a pk => matchStep dist tolerance a enc pk.1 pk.2) acc)
      ([], [])
    let whoSorted := List.insertionSort (fun a b => a ≤ b) res.1
    if return_scores then .triple (!res.1.isEmpty) whoSorted res.2
    else .pair (!res.1.isEmpty) whoSorted

end dlib_backend

namespace insightface_backend

/-- A face the InsightFace detector returned: its integer bounding box
`(x1, y1, x2, y2)` and its normalized embedding as an opaque token. -/
structure InsightFace where
  x1 : ℤ
  y1 : ℤ
  x2 : ℤ
  y2 : ℤ
  emb : Nat
  det_score : ℚ
deriving Repr, DecidableEq

/-- `_embed_faces`: drop detections smaller than `min_face` in either
dimension; with `return_best_only` and more than one remaining face keep only
the highest-confidence embedding, else keep all embeddings in order. -/
def _embed_faces (faces : List InsightFace) (min_face : ℤ)
    (return_best_only : Bool) : List Nat :=
  let valid := faces.filter (fun f =>
    decide (f.x2 - f.x1 ≥ min_face) && decide (f.y2 - f.y1 ≥ min_face))
  match valid with
  | [] => []
  | v :: vs =>
    if return_best_only && (v :: vs).length > 1 then
      [(vs.foldl (fun best f => if f.det_score > best.det_score then f else best)
          v).emb]
    else (v :: vs).map (fun f => f.emb)

/-- `insightface_backend.best_match` as it stands in the tree: NO
`return_scores` parameter exists; the no-face case returns the bare
`(False, [])` pair. `sim` is the opaque `_cosine_sim` capability on embedding
tokens. -/
def best_match (sim : Nat → Nat → ℚ) (known : List (String × List Nat))
    (faces : List InsightFace) (tolerance : ℚ) (min_face_size : ℤ)
    (return_best_only : Bool) : BMResult :=
  let test_embs := _embed_faces faces min_face_size return_best_only
  if test_embs.isEmpty then .pair false []
  else
    let found := test_embs.foldl
      (fun acc e =>
        known.foldl (fun ms pk =>
          if pk.2.isEmpty then ms
          else if pk.2.any (fun k => decide (sim e k ≥ 1 - tolerance)) &&
              !ms.contains pk.1 then
            ms ++ [pk.1]
          else ms) acc)
      []
    .pair (!found.isEmpty) (List.insertionSort (fun a b => a ≤ b) found)

end insightface_backend

namespace factory

/-- The probe-side face detections, tagged by which backend family produced
them (the opaque detection capability differs per backend). -/
structure ProbeInput where
  dlibFaces : List DlibFace
  insightFaces : List insightface_backend.InsightFace
deriving Repr

/-- `factory.best_match`: dispatch on the backend name. For the
`insightface`/`auraface` branch the source forwards a `return_scores` keyword
argument, but `insightface_backend.best_match` accepts no such parameter, so
the Python call raises `TypeError` before the backend runs; the
`auraface_backend` module is absent from the tree, so `_get_backend` raises
`ImportError` for it. An unknown name raises `ValueError` in `_get_backend`. -/
def best_match (backend_name : String) (dist sim : Nat → Nat → ℚ)
    (known : List (String × List Nat)) (probe : ProbeInput) (tolerance : ℚ)
    (min_face_size : ℤ) (return_best_only return_scores : Bool) :
    Except String BMResult :=
  if backend_name == "insightface" then
    .error "TypeError: best_match got an unexpected keyword argument return_scores"
  else if backend_name == "auraface" then
    .error "ImportError: no module named dmaf.face_recognition.auraface_backend"
  else if backend_name == "face_recognition" then
    .ok (dlib_backend.best_match dist known probe.dlibFaces tolerance
      min_face_size return_scores)
  else .error "ValueError: unknown backend"

/-- `factory.load_known_faces`, caching part. `cache_key` and `files_hash`
stand for the outputs of `_make_cache_key` and `_compute_files_hash`;
`backend_result` is what the selected backend would compute for the current
reference-directory state (the opaque embedding capability). Returns the
payload, the updated database, and whether the backend was invoked. The
cache is consulted and written only when a database is provided and the
per-file shape was not requested. -/
def load_known_faces (st : DBState) (cache_key files_hash : String)
    (backend_result : Payload) (db_present return_per_file : Bool) :
    Payload × DBState × Bool :=
  if db_present && !return_per_file then
    match Database.get_cached_embeddings st cache_key files_hash with
    | some cached => (cached, st, false)
    | none =>
      (backend_result,
        Database.save_cached_embeddings st cache_key files_hash backend_result,
        true)
  else (backend_result, st, true)

end factory

/-! ### Helper lemmas about the pipeline state components -/

/-- The FileRecord `_process_image_file` persists for an item. -/
def mkRecord (item : MediaItem) : FileRecord :=
  ⟨item.dedup_key, some item.sha256,
    (if item.recog.matched then 1 else 0), 0,
    dictMaxVal item.recog.scores,
    (if item.recog.matched then dictArgmax item.recog.scores else none)⟩

/-- Number of `files` rows carrying a given dedup key. -/
def countRecords (st : DBState) (key : String) : Nat :=
  (st.files.filter (fun r => r.path == key)).length

theorem borderline_check_files (cfg : PipelineConfig) (item : MediaItem)
    (st : DBState) : (borderline_check cfg item st).files = st.files := by
  unfold borderline_check
  cases dictMaxVal item.recog.scores with
  | none => rfl
  | some s =>
    dsimp only
    split <;> rfl

theorem borderline_check_errors (cfg : PipelineConfig) (item : MediaItem)
    (st : DBState) :
    (borderline_check cfg item st).error_events = st.error_events := by
  unfold borderline_check
  cases dictMaxVal item.recog.scores with
  | none => rfl
  | some s =>
    dsimp only
    split <;> rfl

theorem borderline_check_next_error_id (cfg : PipelineConfig)
    (item : MediaItem) (st : DBState) :
    (borderline_check cfg item st).next_error_id = st.next_error_id := by
  unfold borderline_check
  cases dictMaxVal item.recog.scores with
  | none => rfl
  | some s =>
    dsimp only
    split <;> rfl

theorem add_file_with_score_files (st : DBState) (k : String)
    (sha : Option String) (m u : Nat) (sc : Option ℚ) (p : Option String) :
    (Database.add_file_with_score st k sha m u sc p).files =
      if st.files.any (fun r => r.path == k) then st.files
      else st.files ++ [⟨k, sha, m, u, sc, p⟩] := by
  unfold Database.add_file_with_score
  split <;> simp_all

theorem add_file_with_score_borderline (st : DBState) (k : String)
    (sha : Option String) (m u : Nat) (sc : Option ℚ) (p : Option String) :
    (Database.add_file_with_score st k sha m u sc p).borderline_events =
      st.borderline_events := by
  unfold Database.add_file_with_score
  split <;> rfl

theorem add_file_with_score_errors (st : DBState) (k : String)
    (sha : Option String) (m u : Nat) (sc : Option ℚ) (p : Option String) :
    (Database.add_file_with_score st k sha m u sc p).error_events =
      st.error_events := by
  unfold Database.add_file_with_score
  split <;> rfl

theorem add_file_with_score_next_error_id (st : DBState) (k : String)
    (sha : Option String) (m u : Nat) (sc : Option ℚ) (p : Option String) :
    (Database.add_file_with_score st k sha m u sc p).next_error_id =
      st.next_error_id := by
  unfold Database.add_file_with_score
  split <;> rfl

/-- Full characterization of a successful `_process_image_file` run: the
returned flags, the persisted `files` table, the borderline bookkeeping, and
the recorded upload error. -/
theorem process_spec (cfg : PipelineConfig) (item : MediaItem) (st : DBState)
    (h : item.decode_ok = true) :
    ∃ st' tr,
      _process_image_file cfg item st =
        .ok ((item.recog.matched, item.recog.matched && !item.upload_ok),
          st', tr) ∧
      st'.files =
        (if Database.seen st item.dedup_key then st.files
         else st.files ++ [mkRecord item]) ∧
      st'.borderline_events = (borderline_check cfg item st).borderline_events ∧
      st'.error_events =
        (if item.recog.matched && !item.upload_ok && cfg.has_alert_manager then
          st.error_events ++
            [⟨st.next_error_id, "upload", "upload failed", some item.dedup_key, 0⟩]
         else st.error_events) := by
  unfold _process_image_file
  rw [if_neg (by simp [h])]
  dsimp only
  have hfiles :
      (Database.add_file_with_score (borderline_check cfg item st)
        item.dedup_key (some item.sha256)
        (if item.recog.matched then 1 else 0) 0
        (dictMaxVal item.recog.scores)
        (if item.recog.matched then dictArgmax item.recog.scores else none)).files =
      (if Database.seen st item.dedup_key then st.files
       else st.files ++ [mkRecord item]) := by
    rw [add_file_with_score_files, borderline_check_files, mkRecord,
      Database.seen]
  have hbord :
      (Database.add_file_with_score (borderline_check cfg item st)
        item.dedup_key (some item.sha256)
        (if item.recog.matched then 1 else 0) 0
        (dictMaxVal item.recog.scores)
        (if item.recog.matched then dictArgmax item.recog.scores else none)).borderline_events =
      (borderline_check cfg item st).borderline_events :=
    add_file_with_score_borderline ..
  have herr :
      (Database.add_file_with_score (borderline_check cfg item st)
        item.dedup_key (some item.sha256)
        (if item.recog.matched then 1 else 0) 0
        (dictMaxVal item.recog.scores)
        (if item.recog.matched then dictArgmax item.recog.scores else none)).error_events =
      st.error_events := by
    rw [add_file_with_score_errors, borderline_check_errors]
  have hid :
      (Database.add_file_with_score (borderline_check cfg item st)
        item.dedup_key (some item.sha256)
        (if item.recog.matched then 1 else 0) 0
        (dictMaxVal item.recog.scores)
        (if item.recog.matched then dictArgmax item.recog.scores else none)).next_error_id =
      st.next_error_id := by
    rw [add_file_with_score_next_error_id, borderline_check_next_error_id]
  cases hm : item.recog.matched with
  | false =>
    simp only [hm] at hfiles hbord herr ⊢
    simp only [Bool.false_and, Bool.false_eq_true, if_false]
    exact ⟨_, _, rfl, hfiles, hbord, herr⟩
  | true =>
    simp only [hm, if_true] at hfiles hbord herr hid ⊢
    simp only [if_true, Bool.true_and]
    cases hu : item.upload_ok with
    | true =>
      simp only [hu, Bool.not_true, Bool.false_eq_true, if_false, if_true]
      exact ⟨_, _, rfl, hfiles, hbord, herr⟩
    | false =>
      simp only [hu, Bool.not_false, Bool.false_eq_true, if_false, if_true]
      cases ham : cfg.has_alert_manager with
      | false =>
        simp only [ham, Bool.and_false, Bool.false_eq_true, if_false]
        exact ⟨_, _, rfl, hfiles, hbord, herr⟩
      | true =>
        simp only [ham, Bool.and_true, if_true]
        refine ⟨_, _, rfl, ?_, ?_, ?_⟩
        · simpa only [Database.add_error_event] using hfiles
        · simpa only [Database.add_error_event] using hbord
        · simp only [Database.add_error_event, herr, hid]

/-- The scan loop skips an already-seen key without touching anything. -/
theorem scanStep_seen (cfg : PipelineConfig)
    (acc : DBState × ScanCounters × List Effect) (item : MediaItem)
    (h : Database.seen acc.1 item.dedup_key = true) :
    scanStep cfg acc item = acc := by
  obtain ⟨st, c, tr⟩ := acc
  simp only [scanStep]
  rw [if_pos h]

/-- Processing a fresh, decodable item appends exactly its FileRecord to the
`files` table. -/
theorem scanStep_files_new (cfg : PipelineConfig) (st : DBState)
    (c : ScanCounters) (tr : List Effect) (item : MediaItem)
    (h1 : Database.seen st item.dedup_key = false)
    (h2 : item.decode_ok = true) :
    (scanStep cfg (st, c, tr) item).1.files = st.files ++ [mkRecord item] := by
  obtain ⟨st', tr', heq, hf, _, _⟩ := process_spec cfg item st h2
  simp only [scanStep]
  rw [if_neg (by simp [h1]), heq]
  dsimp only
  rw [hf, if_neg (by simp [h1])]

/-- Claim C1: if a FileRecord for a dedup key already exists, the scan loop
run on an item with that key is a no-op — the state, the counters and the
effect trace (hence recognition and side effects) are all unchanged; a fresh
decodable item makes its key seen and adds exactly one record; consequently,
running the loop twice on the same fresh dedup key leaves exactly one
FileRecord for it, the second run being a no-op. -/
theorem claim_C1 :
    (∀ (cfg : PipelineConfig) (acc : DBState × ScanCounters × List Effect)
        (item : MediaItem),
      Database.seen acc.1 item.dedup_key = true →
      scanStep cfg acc item = acc) ∧
    (∀ (cfg : PipelineConfig) (st : DBState) (c : ScanCounters)
        (tr : List Effect) (item : MediaItem),
      Database.seen st item.dedup_key = false →
      item.decode_ok = true →
      Database.seen (scanStep cfg (st, c, tr) item).1 item.dedup_key = true ∧
      countRecords (scanStep cfg (st, c, tr) item).1 item.dedup_key =
        countRecords st item.dedup_key + 1) ∧
    (∀ (cfg : PipelineConfig) (st : DBState) (c : ScanCounters)
        (tr : List Effect) (item item2 : MediaItem),
      Database.seen st item.dedup_key = false →
      item.decode_ok = true →
      item2.dedup_key = item.dedup_key →
      countRecords st item.dedup_key = 0 →
      scanStep cfg (scanStep cfg (st, c, tr) item) item2 =
        scanStep cfg (st, c, tr) item ∧
      countRecords (scanStep cfg (st, c, tr) item).1 item.dedup_key = 1) := by
  have hseen : ∀ (cfg : PipelineConfig) (st : DBState) (c : ScanCounters)
      (tr : List Effect) (item : MediaItem),
      Database.seen st item.dedup_key = false → item.decode_ok = true →
      Database.seen (scanStep cfg (st, c, tr) item).1 item.dedup_key = true := by
    intro cfg st c tr item h1 h2
    have hf := scanStep_files_new cfg st c tr item h1 h2
    simp only [Database.seen, hf, List.any_append]
    simp [mkRecord]
  have hcount : ∀ (cfg : PipelineConfig) (st : DBState) (c : ScanCounters)
      (tr : List Effect) (item : MediaItem),
      Database.seen st item.dedup_key = false → item.decode_ok = true →
      countRecords (scanStep cfg (st, c, tr) item).1 item.dedup_key =
        countRecords st item.dedup_key + 1 := by
    intro cfg st c tr item h1 h2
    have hf := scanStep_files_new cfg st c tr item h1 h2
    simp only [countRecords, hf, List.filter_append]
    simp [mkRecord]
  refine ⟨fun cfg acc item h => scanStep_seen cfg acc item h, ?_, ?_⟩
  · intro cfg st c tr item h1 h2
    exact ⟨hseen cfg st c tr item h1 h2, hcount cfg st c tr item h1 h2⟩
  · intro cfg st c tr item item2 h1 h2 hk h0
    constructor
    · apply scanStep_seen
      rw [hk]
      exact hseen cfg st c tr item h1 h2
    · rw [hcount cfg st c tr item h1 h2, h0]

/-- Witness for C1 at a concrete fresh item against the empty database. -/
theorem claim_C1_witness :
    scanStep ⟨13/25, 1/10, false, false, true⟩
        (scanStep ⟨13/25, 1/10, false, false, true⟩
          (DBState.empty, ⟨0, 0, 0, 0⟩, [])
          ⟨"/w/a.jpg", "h1", true, ⟨true, ["Alice"], [("Alice", 4/5)]⟩, true⟩)
        ⟨"/w/a.jpg", "h1", true, ⟨true, ["Alice"], [("Alice", 4/5)]⟩, true⟩ =
      scanStep ⟨13/25, 1/10, false, false, true⟩
        (DBState.empty, ⟨0, 0, 0, 0⟩, [])
        ⟨"/w/a.jpg", "h1", true, ⟨true, ["Alice"], [("Alice", 4/5)]⟩, true⟩ ∧
    countRecords
      (scanStep ⟨13/25, 1/10, false, false, true⟩
        (DBState.empty, ⟨0, 0, 0, 0⟩, [])
        ⟨"/w/a.jpg", "h1", true, ⟨true, ["Alice"], [("Alice", 4/5)]⟩, true⟩).1
      "/w/a.jpg" = 1 :=
  claim_C1.2.2 ⟨13/25, 1/10, false, false, true⟩ DBState.empty ⟨0, 0, 0, 0⟩ []
    ⟨"/w/a.jpg", "h1", true, ⟨true, ["Alice"], [("Alice", 4/5)]⟩, true⟩
    ⟨"/w/a.jpg", "h1", true, ⟨true, ["Alice"], [("Alice", 4/5)]⟩, true⟩
    (by decide) rfl rfl (by decide)

/-- Claim C4: for a processed item with alerting wired up, a non-empty scores
mapping and no matched identity, a BorderlineEvent carrying the best score
and the closest identity is recorded if and only if the best score lies in
the half-open band `[(1 - tolerance) - borderline_offset, 1 - tolerance)`
(so a score exactly at `1 - tolerance` is never Borderline); with an empty
scores mapping no BorderlineEvent is ever recorded. -/
theorem claim_C4 :
    (∀ (cfg : PipelineConfig) (item : MediaItem) (st : DBState) (s : ℚ),
      cfg.has_alert_manager = true →
      item.decode_ok = true →
      item.recog.matched = false →
      dictMaxVal item.recog.scores = some s →
      ∃ fl st' tr, _process_image_file cfg item st = .ok (fl, st', tr) ∧
        (st'.borderline_events =
            st.borderline_events ++
              [⟨st.next_borderline_id, item.dedup_key, s, cfg.tolerance,
                dictArgmax item.recog.scores, 0⟩] ↔
          ((1 - cfg.tolerance) - cfg.borderline_offset ≤ s ∧
            s < 1 - cfg.tolerance)) ∧
        (¬((1 - cfg.tolerance) - cfg.borderline_offset ≤ s ∧
            s < 1 - cfg.tolerance) →
          st'.borderline_events = st.borderline_events)) ∧
    (∀ (cfg : PipelineConfig) (item : MediaItem) (st : DBState),
      item.decode_ok = true →
      item.recog.scores = [] →
      ∃ fl st' tr, _process_image_file cfg item st = .ok (fl, st', tr) ∧
        st'.borderline_events = st.borderline_events) := by
  constructor
  · intro cfg item st s ham hdec hm hs
    obtain ⟨st', tr, heq, _, hbord, _⟩ := process_spec cfg item st hdec
    refine ⟨_, st', tr, heq, ?_⟩
    rw [hbord]
    unfold borderline_check
    rw [hs]
    dsimp only
    simp only [ham, hm, Bool.not_false, Bool.true_and]
    by_cases hband : ((1 - cfg.tolerance) - cfg.borderline_offset ≤ s ∧
        s < 1 - cfg.tolerance)
    · rw [if_pos (by simp [hband.1, hband.2])]
      constructor
      · constructor
        · intro _
          exact hband
        · intro _
          simp [Database.add_borderline_event]
      · intro hc
        exact absurd hband hc
    · rw [if_neg (by rcases not_and_or.mp hband with h | h <;> simp [h])]
      constructor
      · constructor
        · intro habs
          have := congrArg List.length habs
          simp at this
        · intro hc
          exact absurd hc hband
      · intro _
        rfl
  · intro cfg item st hdec hsc
    obtain ⟨st', tr, heq, _, hbord, _⟩ := process_spec cfg item st hdec
    refine ⟨_, st', tr, heq, ?_⟩
    rw [hbord]
    unfold borderline_check
    rw [hsc]
    rfl

/-- Witness for C4: tolerance 0.52 (threshold 0.48), offset 0.1, best score
0.44 — inside the borderline band. -/
theorem claim_C4_witness :
    ∃ fl st' tr,
      _process_image_file ⟨13/25, 1/10, false, false, true⟩
          ⟨"/w/b.jpg", "h2", true, ⟨false, [], [("Alice", 11/25)]⟩, true⟩
          DBState.empty =
        .ok (fl, st', tr) ∧
      (st'.borderline_events =
          DBState.empty.borderline_events ++
            [⟨DBState.empty.next_borderline_id, "/w/b.jpg", 11/25, 13/25,
              dictArgmax [("Alice", 11/25)], 0⟩] ↔
        ((1 - 13/25 - 1/10 : ℚ) ≤ 11/25 ∧ (11/25 : ℚ) < 1 - 13/25)) ∧
      (¬((1 - 13/25 - 1/10 : ℚ) ≤ 11/25 ∧ (11/25 : ℚ) < 1 - 13/25) →
        st'.borderline_events = DBState.empty.borderline_events) := by
  exact claim_C4.1 ⟨13/25, 1/10, false, false, true⟩
    ⟨"/w/b.jpg", "h2", true, ⟨false, [], [("Alice", 11/25)]⟩, true⟩
    DBState.empty (11/25) rfl rfl rfl rfl

/-- Counterexample to C3 as stated: for a matched item whose upload side
effect raises, `_process_image_file` does NOT propagate the exception — the
call returns normally (`isOk`), the failure being reported through the
returned `had_error` flag instead. -/
theorem claim_C3_counterexample :
    (_process_image_file ⟨13/25, 1/10, false, false, true⟩
        ⟨"/w/c.jpg", "h3", true, ⟨true, ["Alice"], [("Alice", 4/5)]⟩, false⟩
        DBState.empty).isOk = true := by
  decide

/-- Claim C3 (amended): for a fresh matched item whose upload side effect
raises, the pipeline records an `upload` ErrorEvent, catches the exception
and reports the failure through the returned `had_error` flag — which the
scan loop tallies as one scan-level error — and the FileRecord is still
persisted with matched=1 and uploaded=0, the `files` table being exactly what
it would have been had the upload succeeded. -/
theorem claim_C3 (cfg : PipelineConfig) (item : MediaItem) (st : DBState)
    (ham : cfg.has_alert_manager = true)
    (hdec : item.decode_ok = true)
    (hm : item.recog.matched = true)
    (hu : item.upload_ok = false)
    (hnew : Database.seen st item.dedup_key = false) :
    ∃ st' tr,
      _process_image_file cfg item st = .ok ((true, true), st', tr) ∧
      st'.error_events =
        st.error_events ++
          [⟨st.next_error_id, "upload", "upload failed", some item.dedup_key, 0⟩] ∧
      st'.files =
        st.files ++
          [⟨item.dedup_key, some item.sha256, 1, 0,
            dictMaxVal item.recog.scores, dictArgmax item.recog.scores⟩] ∧
      (∀ (fl2 : Bool × Bool) (st2' : DBState) (tr2 : List Effect),
        _process_image_file cfg { item with upload_ok := true } st =
          .ok (fl2, st2', tr2) →
        st2'.files = st'.files) ∧
      (∀ (c : ScanCounters) (tr0 : List Effect),
        ((scanStep cfg (st, c, tr0) item).2.1).errors = c.errors + 1) := by
  obtain ⟨st', tr, heq, hfiles, _, herr⟩ := process_spec cfg item st hdec
  rw [hm, hu] at heq
  refine ⟨st', tr, heq, ?_, ?_, ?_, ?_⟩
  · rw [herr, hm, hu, ham]
    rfl
  · rw [hfiles, if_neg (by simp [hnew])]
    simp [mkRecord, hm]
  · intro fl2 st2' tr2 heq2
    obtain ⟨st2, tr2', heq2', hfiles2, _, _⟩ :=
      process_spec cfg { item with upload_ok := true } st hdec
    rw [heq2'] at heq2
    cases heq2
    rw [hfiles2, hfiles]
    rfl
  · intro c tr0
    simp only [scanStep]
    rw [if_neg (by simp [hnew]), heq]
    simp

/-- Witness for C3 at a concrete matched item with a failing upload. -/
theorem claim_C3_witness :
    ∃ st' tr,
      _process_image_file ⟨13/25, 1/10, false, false, true⟩
          ⟨"/w/d.jpg", "h4", true, ⟨true, ["Alice"], [("Alice", 4/5)]⟩, false⟩
          DBState.empty =
        .ok ((true, true), st', tr) ∧
      st'.error_events =
        DBState.empty.error_events ++
          [⟨DBState.empty.next_error_id, "upload", "upload failed",
            some "/w/d.jpg", 0⟩] ∧
      st'.files =
        DBState.empty.files ++
          [⟨"/w/d.jpg", some "h4", 1, 0, dictMaxVal [("Alice", 4/5)],
            dictArgmax [("Alice", 4/5)]⟩] ∧
      (∀ (fl2 : Bool × Bool) (st2' : DBState) (tr2 : List Effect),
        _process_image_file ⟨13/25, 1/10, false, false, true⟩
            ⟨"/w/d.jpg", "h4", true, ⟨true, ["Alice"], [("Alice", 4/5)]⟩,
              true⟩ DBState.empty =
          .ok (fl2, st2', tr2) →
        st2'.files = st'.files) ∧
      (∀ (c : ScanCounters) (tr0 : List Effect),
        ((scanStep ⟨13/25, 1/10, false, false, true⟩
            (DBState.empty, c, tr0)
            ⟨"/w/d.jpg", "h4", true, ⟨true, ["Alice"], [("Alice", 4/5)]⟩,
              false⟩).2.1).errors = c.errors + 1) := by
  exact claim_C3 ⟨13/25, 1/10, false, false, true⟩
    ⟨"/w/d.jpg", "h4", true, ⟨true, ["Alice"], [("Alice", 4/5)]⟩, false⟩
    DBState.empty rfl rfl rfl rfl (by decide)

/-- Claim C10: every ScanResult satisfies `uploaded = matched - errors`, with
`errors` also counting failures unrelated to uploading; concretely, a failed
GCS listing plus an undecodable image yield `uploaded = -2` with no match,
and a successful upload next to one decode failure yields `uploaded = 0`
even though exactly one upload attempt was made and succeeded. -/
theorem claim_C10 :
    (∀ (cfg : PipelineConfig) (srcs : List ScanSource) (st : DBState),
      (scan_and_process_once cfg srcs st).1.uploaded =
        ((scan_and_process_once cfg srcs st).1.matched : ℤ) -
          ((scan_and_process_once cfg srcs st).1.errors : ℤ)) ∧
    ((scan_and_process_once ⟨13/25, 1/10, false, false, false⟩
        [.gcsDir (.error "listing failed"),
          .localDir true [⟨"/w/e.jpg", "h5", false, ⟨false, [], []⟩, true⟩]]
        DBState.empty).1.matched = 0 ∧
      (scan_and_process_once ⟨13/25, 1/10, false, false, false⟩
        [.gcsDir (.error "listing failed"),
          .localDir true [⟨"/w/e.jpg", "h5", false, ⟨false, [], []⟩, true⟩]]
        DBState.empty).1.errors = 2 ∧
      (scan_and_process_once ⟨13/25, 1/10, false, false, false⟩
        [.gcsDir (.error "listing failed"),
          .localDir true [⟨"/w/e.jpg", "h5", false, ⟨false, [], []⟩, true⟩]]
        DBState.empty).1.uploaded = -2) ∧
    ((scan_and_process_once ⟨13/25, 1/10, false, false, false⟩
        [.localDir true
          [⟨"/w/f.jpg", "h6", true, ⟨true, ["Alice"], [("Alice", 4/5)]⟩, true⟩,
            ⟨"/w/g.jpg", "h7", false, ⟨false, [], []⟩, true⟩]]
        DBState.empty).1.uploaded = 0 ∧
      (scan_and_process_once ⟨13/25, 1/10, false, false, false⟩
        [.localDir true
          [⟨"/w/f.jpg", "h6", true, ⟨true, ["Alice"], [("Alice", 4/5)]⟩, true⟩,
            ⟨"/w/g.jpg", "h7", false, ⟨false, [], []⟩, true⟩]]
        DBState.empty).2.2 = [.recognize, .uploadAttempt]) := by
  refine ⟨fun cfg srcs st => rfl, ⟨?_, ?_, ?_⟩, ?_, ?_⟩ <;> decide

/-- After an `INSERT OR REPLACE` of a cache row, looking the key up finds
exactly the fresh row. -/
theorem find?_save (l : List (String × CacheEntry)) (key : String)
    (e : CacheEntry) :
    ((l.filter (fun p => !(p.1 == key))) ++ [(key, e)]).find?
      (fun p => p.1 == key) = some (key, e) := by
  induction l with
  | nil => simp [List.find?]
  | cons a l ih =>
    by_cases ha : a.1 == key
    · simp [List.filter_cons, ha, ih]
    · simp [List.filter_cons, ha, List.find?_cons, ih]

/-- Claim C2: `get_cached_embeddings` returns a stored payload iff an entry
exists under the cache key, its stored files hash equals the fresh one, and
the blob deserializes; in every other case it returns `None`, and
`load_known_faces` then invokes the backend and overwrites the entry for
that key (so the key subsequently hits with the fresh payload), while a hit
returns the cached payload without invoking the backend. -/
theorem claim_C2 :
    (∀ (st : DBState) (key hash : String) (v : Payload),
      Database.get_cached_embeddings st key hash = some v ↔
        ∃ e, st.embedding_cache.find? (fun p => p.1 == key) = some (key, e) ∧
          e.files_hash = hash ∧ deserialize e.blob = some v) ∧
    (∀ (st : DBState) (key hash : String) (backend_result v : Payload),
      Database.get_cached_embeddings st key hash = some v →
      factory.load_known_faces st key hash backend_result true false =
        (v, st, false)) ∧
    (∀ (st : DBState) (key hash : String) (backend_result : Payload),
      Database.get_cached_embeddings st key hash = none →
      factory.load_known_faces st key hash backend_result true false =
        (backend_result,
          Database.save_cached_embeddings st key hash backend_result, true) ∧
      Database.get_cached_embeddings
          (Database.save_cached_embeddings st key hash backend_result) key
          hash =
        some backend_result) := by
  refine ⟨?_, ?_, ?_⟩
  · intro st key hash v
    unfold Database.get_cached_embeddings
    cases hf : st.embedding_cache.find? (fun p => p.1 == key) with
    | none => simp
    | some pe =>
      obtain ⟨k, e⟩ := pe
      have hk : k = key := by
        have hp := List.find?_some hf
        simpa using hp
      subst hk
      dsimp only
      by_cases hh : e.files_hash = hash
      · rw [if_neg (by simp [hh])]
        constructor
        · intro hv
          exact ⟨e, rfl, hh, hv⟩
        · intro ⟨e2, he2, _, hv⟩
          cases he2
          exact hv
      · rw [if_pos (by simp [hh])]
        constructor
        · intro hv
          cases hv
        · intro ⟨e2, he2, hh2, _⟩
          cases he2
          exact absurd hh2 hh
  · intro st key hash backend_result v h
    unfold factory.load_known_faces
    rw [h]
    rfl
  · intro st key hash backend_result h
    constructor
    · unfold factory.load_known_faces
      rw [h]
      rfl
    · unfold Database.get_cached_embeddings Database.save_cached_embeddings
      dsimp only
      rw [find?_save]
      simp [deserialize]

/-- Witness for C2: a concrete stale entry (hash mismatch) misses, the
backend is invoked, the entry is overwritten and subsequently hits. -/
theorem claim_C2_witness :
    factory.load_known_faces
        ⟨[], [], [], [], [], [("k1", ⟨"oldhash", .corrupt⟩)], 0, 0⟩ "k1"
        "newhash" ([("Alice", [[1, 0]])], ["Alice"]) true false =
      (([("Alice", [[1, 0]])], ["Alice"]),
        Database.save_cached_embeddings
          ⟨[], [], [], [], [], [("k1", ⟨"oldhash", .corrupt⟩)], 0, 0⟩ "k1"
          "newhash" ([("Alice", [[1, 0]])], ["Alice"]), true) ∧
    Database.get_cached_embeddings
        (Database.save_cached_embeddings
          ⟨[], [], [], [], [], [("k1", ⟨"oldhash", .corrupt⟩)], 0, 0⟩ "k1"
          "newhash" ([("Alice", [[1, 0]])], ["Alice"])) "k1" "newhash" =
      some ([("Alice", [[1, 0]])], ["Alice"]) := by
  exact claim_C2.2.2 ⟨[], [], [], [], [], [("k1", ⟨"oldhash", .corrupt⟩)], 0, 0⟩
    "k1" "newhash" ([("Alice", [[1, 0]])], ["Alice"]) (by decide)

/-- Claim C5, evaluated at the failing input: on the SQLite backend
`add_file` (INSERT OR IGNORE) and repeated `mark_uploaded` leave an
`uploaded=1` record at 1, but on the Firestore backend `add_file` uses
`set(..., merge=True)`, which overwrites the `uploaded` field of an existing
document — re-adding a record for a key whose document has `uploaded=1`
resets it to 0, contradicting the monotonicity claim (and the source's own
"like INSERT OR IGNORE" comment). -/
theorem claim_C5_eval :
    FirestoreDatabase.add_file [⟨"/w/p.jpg", some "h8", 1, 1⟩] "/w/p.jpg"
        (some "h8") 1 0 =
      [⟨"/w/p.jpg", some "h8", 1, 0⟩] ∧
    Database.add_file
        ⟨[⟨"/w/p.jpg", some "h8", 1, 1, none, none⟩], [], [], [], [], [], 0, 0⟩
        "/w/p.jpg" (some "h8") 1 0 =
      ⟨[⟨"/w/p.jpg", some "h8", 1, 1, none, none⟩], [], [], [], [], [], 0, 0⟩ ∧
    Database.mark_uploaded
        (Database.mark_uploaded
          ⟨[⟨"/w/p.jpg", some "h8", 1, 0, none, none⟩], [], [], [], [], [], 0,
            0⟩
          "/w/p.jpg")
        "/w/p.jpg" =
      ⟨[⟨"/w/p.jpg", some "h8", 1, 1, none, none⟩], [], [], [], [], [], 0, 0⟩ ∧
    FirestoreDatabase.mark_uploaded
        (FirestoreDatabase.mark_uploaded [⟨"/w/p.jpg", some "h8", 1, 0⟩]
          "/w/p.jpg")
        "/w/p.jpg" =
      [⟨"/w/p.jpg", some "h8", 1, 1⟩] := by
  refine ⟨?_, ?_, ?_, ?_⟩ <;> decide

/-- Claim C6, evaluated at the failing input: once any AlertBatch row exists
(written with a naive `CURRENT_TIMESTAMP`), `should_send_alert` subtracts
the naive stored time from the aware `datetime.now(timezone.utc)` and raises
`TypeError` — both 10 and 61 minutes after the batch — instead of returning
False and True as claimed; only the never-alerted path returns a Bool. -/
theorem claim_C6_eval :
    AlertManager.should_send_alert
        ⟨[], [⟨0, "/w/b.jpg", 11/25, 13/25, some "Alice", 0⟩], [],
          [⟨"borderline", "user@example.com", 1, 0⟩], [], [], 1, 0⟩
        ⟨true, ["user@example.com"], 60⟩ 10 =
      .error "TypeError: cannot subtract offset-naive and offset-aware datetimes" ∧
    AlertManager.should_send_alert
        ⟨[], [⟨0, "/w/b.jpg", 11/25, 13/25, some "Alice", 0⟩], [],
          [⟨"borderline", "user@example.com", 1, 0⟩], [], [], 1, 0⟩
        ⟨true, ["user@example.com"], 60⟩ 61 =
      .error "TypeError: cannot subtract offset-naive and offset-aware datetimes" ∧
    AlertManager.should_send_alert
        ⟨[], [⟨0, "/w/b.jpg", 11/25, 13/25, some "Alice", 0⟩], [], [], [], [],
          1, 0⟩
        ⟨true, ["user@example.com"], 60⟩ 10 =
      .ok true := by
  refine ⟨rfl, rfl, rfl⟩

/-- Claim C7, evaluated at the failing input: `factory.best_match` forwards a
`return_scores` keyword to `insightface_backend.best_match`, which has no
such parameter, so the call raises `TypeError` for the insightface backend
instead of returning scores; the insightface backend's own no-face return is
the bare pair `(False, [])`, not `(False, [], {})`. The dlib backend does
honour the contract: on a concrete probe its scores entry is the maximum
similarity `1 - distance` over all probe/reference pairs, and its no-face
return with scores requested is `(False, [], {})`. -/
theorem claim_C7_eval :
    factory.best_match "insightface" (fun _ _ => 0) (fun _ _ => 0)
        [("Alice", [0])] ⟨[], []⟩ (2/5) 80 false true =
      .error "TypeError: best_match got an unexpected keyword argument return_scores" ∧
    insightface_backend.best_match (fun _ _ => 0) [("Alice", [0])] [] (2/5)
        80 false =
      .pair false [] ∧
    dlib_backend.best_match (fun _ _ => 0) [("Alice", [0])] [] (13/25) 80
        true =
      .triple false [] [] ∧
    dlib_backend.best_match
        (fun k e =>
          if k == 0 && e == 10 then 3/10
          else if k == 1 && e == 10 then 1/2
          else if k == 0 && e == 11 then 2/5
          else 1/5)
        [("Alice", [0, 1])]
        [⟨0, 200, 200, 0, 10⟩, ⟨0, 200, 200, 0, 11⟩] (13/25) 80 true =
      .triple true ["Alice"] [("Alice", 4/5)] := by
  refine ⟨rfl, by decide, by decide, by with_unfolding_all decide⟩

/-- Marking a superset of the pending ids leaves no pending borderline
events. -/
theorem filter_mark_borderline (evs : List BorderlineEvent) (ids : List Nat)
    (h : ∀ e ∈ evs, e.alerted = 0 → e.id ∈ ids) :
    (evs.map (fun e => if e.id ∈ ids then { e with alerted := 1 } else e)).filter
      (fun e => e.alerted == 0) = [] := by
  induction evs with
  | nil => rfl
  | cons a l ih =>
    simp only [List.map_cons, List.filter_cons]
    have hl : ∀ e ∈ l, e.alerted = 0 → e.id ∈ ids :=
      fun e he => h e (List.mem_cons_of_mem a he)
    by_cases ha : a.id ∈ ids
    · rw [if_pos ha]
      simpa using ih hl
    · have hne : a.alerted ≠ 0 :=
        fun h0 => ha (h a (List.mem_cons_self a l) h0)
      rw [if_neg ha]
      simpa [Nat.beq_eq_true_eq, hne] using ih hl

/-- Marking a superset of the pending ids leaves no pending error events. -/
theorem filter_mark_error (evs : List ErrorEvent) (ids : List Nat)
    (h : ∀ e ∈ evs, e.alerted = 0 → e.id ∈ ids) :
    (evs.map (fun e => if e.id ∈ ids then { e with alerted := 1 } else e)).filter
      (fun e => e.alerted == 0) = [] := by
  induction evs with
  | nil => rfl
  | cons a l ih =>
    simp only [List.map_cons, List.filter_cons]
    have hl : ∀ e ∈ l, e.alerted = 0 → e.id ∈ ids :=
      fun e he => h e (List.mem_cons_of_mem a he)
    by_cases ha : a.id ∈ ids
    · rw [if_pos ha]
      simpa using ih hl
    · have hne : a.alerted ≠ 0 :=
        fun h0 => ha (h a (List.mem_cons_self a l) h0)
      rw [if_neg ha]
      simpa [Nat.beq_eq_true_eq, hne] using ih hl

/-- `record_alert_sent` folded over the recipients appends one batch row per
recipient, in order. -/
theorem foldl_record_batches (rs : List String) (st : DBState) (ty : String)
    (total : Nat) (now : ℤ) :
    (rs.foldl (fun s r => Database.record_alert_sent s ty r total now)
        st).alert_batches =
      st.alert_batches ++ rs.map (fun r => ⟨ty, r, total, now⟩) := by
  induction rs generalizing st with
  | nil => simp
  | cons a l ih =>
    rw [List.foldl_cons, ih]
    simp [Database.record_alert_sent]

theorem foldl_record_borderline (rs : List String) (st : DBState)
    (ty : String) (total : Nat) (now : ℤ) :
    (rs.foldl (fun s r => Database.record_alert_sent s ty r total now)
        st).borderline_events = st.borderline_events := by
  induction rs generalizing st with
  | nil => rfl
  | cons a l ih =>
    rw [List.foldl_cons, ih]
    rfl

theorem foldl_record_errors (rs : List String) (st : DBState) (ty : String)
    (total : Nat) (now : ℤ) :
    (rs.foldl (fun s r => Database.record_alert_sent s ty r total now)
        st).error_events = st.error_events := by
  induction rs generalizing st with
  | nil => rfl
  | cons a l ih =>
    rw [List.foldl_cons, ih]
    rfl

/-- Claim C8: `send_pending_alerts` returns 0 with no state change when the
transport is unconfigured or delivery fails (every gathered event stays
pending); on successful delivery it returns the number of gathered events,
leaves no pending Borderline or Error event, and appends exactly one
AlertBatch row per configured recipient. -/
theorem claim_C8 :
    (∀ (st : DBState) (cfg : AlertConfig) (email_ok : Bool) (now : ℤ),
      cfg.smtp_configured = false →
      AlertManager.send_pending_alerts st cfg email_ok now = (0, st)) ∧
    (∀ (st : DBState) (cfg : AlertConfig) (now : ℤ),
      AlertManager.send_pending_alerts st cfg false now = (0, st)) ∧
    (∀ (st : DBState) (cfg : AlertConfig) (now : ℤ),
      cfg.smtp_configured = true →
      ((Database.pending_borderline st).isEmpty &&
          (Database.pending_error st).isEmpty) = false →
      (AlertManager.send_pending_alerts st cfg true now).1 =
        (Database.pending_borderline st).length +
          (Database.pending_error st).length ∧
      Database.pending_borderline
        (AlertManager.send_pending_alerts st cfg true now).2 = [] ∧
      Database.pending_error
        (AlertManager.send_pending_alerts st cfg true now).2 = [] ∧
      (AlertManager.send_pending_alerts st cfg true now).2.alert_batches =
        st.alert_batches ++
          cfg.recipients.map (fun r =>
            ⟨(if !(Database.pending_borderline st).isEmpty &&
                  !(Database.pending_error st).isEmpty then "combined"
               else if !(Database.pending_error st).isEmpty then "error"
               else "borderline"), r,
              (Database.pending_borderline st).length +
                (Database.pending_error st).length, now⟩)) := by
  refine ⟨?_, ?_, ?_⟩
  · intro st cfg email_ok now h
    unfold AlertManager.send_pending_alerts
    rw [if_pos (by simp [h])]
  · intro st cfg now
    unfold AlertManager.send_pending_alerts
    by_cases h1 : cfg.smtp_configured = true
    · rw [if_neg (by simp [h1])]
      dsimp only
      by_cases h2 : ((Database.pending_borderline st).isEmpty &&
          (Database.pending_error st).isEmpty) = true
      · rw [if_pos h2]
      · rw [if_neg h2, if_pos (by simp)]
    · rw [if_pos (by simpa using h1)]
  · intro st cfg now h1 h2
    have hmain : AlertManager.send_pending_alerts st cfg true now =
        ((Database.pending_borderline st).length +
            (Database.pending_error st).length,
          cfg.recipients.foldl
            (fun s r => Database.record_alert_sent s
              (if !(Database.pending_borderline st).isEmpty &&
                  !(Database.pending_error st).isEmpty then "combined"
               else if !(Database.pending_error st).isEmpty then "error"
               else "borderline") r
              ((Database.pending_borderline st).length +
                (Database.pending_error st).length) now)
            (Database.mark_events_alerted
              (Database.mark_events_alerted st
                ((Database.pending_borderline st).map (fun e => e.id))
                .borderline)
              ((Database.pending_error st).map (fun e => e.id)) .error)) := by
      unfold AlertManager.send_pending_alerts
      rw [if_neg (by simp [h1]), if_neg (by simp [h2]),
        if_neg (by simp)]
    rw [hmain]
    refine ⟨rfl, ?_, ?_, ?_⟩
    · unfold Database.pending_borderline
      rw [foldl_record_borderline]
      show ((Database.mark_events_alerted _ _ .borderline).borderline_events.filter _) = []
      unfold Database.mark_events_alerted
      dsimp only
      apply filter_mark_borderline
      intro e he h0
      exact List.mem_map.mpr
        ⟨e, List.mem_filter.mpr ⟨he, by simp [h0]⟩, rfl⟩
    · unfold Database.pending_error
      rw [foldl_record_errors]
      show ((Database.mark_events_alerted _ _ .error).error_events.filter _) = []
      unfold Database.mark_events_alerted
      dsimp only
      apply filter_mark_error
      intro e he h0
      exact List.mem_map.mpr ⟨e, List.mem_filter.mpr ⟨he, by simp [h0]⟩, rfl⟩
    · rw [foldl_record_batches]
      rfl

/-- Witness for C8: one pending borderline and one pending error event, two
recipients, successful delivery. -/
theorem claim_C8_witness :
    (AlertManager.send_pending_alerts
        ⟨[], [⟨0, "/w/b.jpg", 11/25, 13/25, some "Alice", 0⟩],
          [⟨0, "processing", "decode failed", some "/w/e.jpg", 0⟩], [], [],
          [], 1, 1⟩
        ⟨true, ["a@example.com", "b@example.com"], 60⟩ true 5).1 = 2 ∧
    Database.pending_borderline
      (AlertManager.send_pending_alerts
        ⟨[], [⟨0, "/w/b.jpg", 11/25, 13/25, some "Alice", 0⟩],
          [⟨0, "processing", "decode failed", some "/w/e.jpg", 0⟩], [], [],
          [], 1, 1⟩
        ⟨true, ["a@example.com", "b@example.com"], 60⟩ true 5).2 = [] ∧
    Database.pending_error
      (AlertManager.send_pending_alerts
        ⟨[], [⟨0, "/w/b.jpg", 11/25, 13/25, some "Alice", 0⟩],
          [⟨0, "processing", "decode failed", some "/w/e.jpg", 0⟩], [], [],
          [], 1, 1⟩
        ⟨true, ["a@example.com", "b@example.com"], 60⟩ true 5).2 = [] ∧
    (AlertManager.send_pending_alerts
        ⟨[], [⟨0, "/w/b.jpg", 11/25, 13/25, some "Alice", 0⟩],
          [⟨0, "processing", "decode failed", some "/w/e.jpg", 0⟩], [], [],
          [], 1, 1⟩
        ⟨true, ["a@example.com", "b@example.com"], 60⟩ true 5).2.alert_batches =
      [⟨"combined", "a@example.com", 2, 5⟩,
        ⟨"combined", "b@example.com", 2, 5⟩] := by
  have h := claim_C8.2.2
    ⟨[], [⟨0, "/w/b.jpg", 11/25, 13/25, some "Alice", 0⟩],
      [⟨0, "processing", "decode failed", some "/w/e.jpg", 0⟩], [], [], [],
      1, 1⟩
    ⟨true, ["a@example.com", "b@example.com"], 60⟩ 5 rfl rfl
  exact ⟨h.1, h.2.1, h.2.2.1, h.2.2.2⟩

/-- The spec-side row condition of `find_candidates`: matched, uploaded,
right person, score present, and the path never used as a refresh source. -/
def refreshCondSpec (hist : List RefreshRecord) (person : String)
    (f : FileRecord) : Bool :=
  f.matched == 1 && f.uploaded == 1 && f.matched_person == some person &&
    f.match_score.isSome &&
    !(hist.any (fun r => r.source_file_path == f.path))

instance : IsTotal CandidateRow Database.rowLE :=
  ⟨fun a b => by
    unfold Database.rowLE
    exact le_total a.score_delta b.score_delta⟩

instance : IsTrans CandidateRow Database.rowLE :=
  ⟨fun a b c hab hbc => by
    unfold Database.rowLE at *
    exact le_trans hab hbc⟩

/-- The per-file contribution of the LEFT JOIN collapses to the NOT-IN
filter: rows paired with a history record fail `r.id IS NULL`, and the
lone `none`-paired row survives exactly when the file row passes the rest of
the WHERE clause. -/
theorem join_elim_head (f : FileRecord) (hist : List RefreshRecord)
    (person : String) (target : ℚ) :
    (((if (hist.filter (fun r => r.source_file_path == f.path)).isEmpty then
          [(f, (none : Option RefreshRecord))]
        else
          (hist.filter (fun r => r.source_file_path == f.path)).map
            (fun r => (f, some r))).filter (Database.refreshWhere person)).map
        (fun fr => Database.toCandidateRow target fr.1)) =
      ((if refreshCondSpec hist person f then [f] else []).map
        (Database.toCandidateRow target)) := by
  by_cases hm : (hist.filter (fun r => r.source_file_path == f.path)).isEmpty
  · have hany : hist.any (fun r => r.source_file_path == f.path) = false := by
      rw [List.any_eq_false]
      intro r hr hp
      rw [List.isEmpty_iff, List.filter_eq_nil_iff] at hm
      exact hm r hr hp
    rw [if_pos hm]
    by_cases hA : (f.matched == 1 && f.uploaded == 1 &&
        f.matched_person == some person && f.match_score.isSome) = true
    · rw [List.filter_cons, if_pos (by simp [Database.refreshWhere, hA])]
      rw [if_pos (by simp only [refreshCondSpec, hany]; simp [hA])]
      rfl
    · rw [List.filter_cons, if_neg (by simp [Database.refreshWhere]; simp at hA; tauto)]
      rw [if_neg (by simp only [refreshCondSpec, hany]; simp; simp at hA; tauto)]
      rfl
  · have hany : hist.any (fun r => r.source_file_path == f.path) = true := by
      rw [List.isEmpty_iff] at hm
      rcases List.exists_mem_of_ne_nil _ hm with ⟨r, hr⟩
      rw [List.mem_filter] at hr
      exact List.any_eq_true.mpr ⟨r, hr.1, hr.2⟩
    rw [if_neg hm]
    rw [if_neg (by simp [refreshCondSpec, hany])]
    rw [List.filter_eq_nil_iff.mpr ?_]
    · rfl
    · intro x hx
      rcases List.mem_map.mp hx with ⟨r, _, hrx⟩
      subst hrx
      simp [Database.refreshWhere]

/-- The full LEFT JOIN / WHERE / SELECT of `get_refresh_candidates` equals
the spec-side filter followed by the projection. -/
theorem join_elim (files : List FileRecord) (hist : List RefreshRecord)
    (person : String) (target : ℚ) :
    ((Database.leftJoinHistory files hist).filter
        (Database.refreshWhere person)).map
      (fun fr => Database.toCandidateRow target fr.1) =
      (files.filter (refreshCondSpec hist person)).map
        (Database.toCandidateRow target) := by
  induction files with
  | nil => rfl
  | cons f fs ih =>
    unfold Database.leftJoinHistory
    rw [List.flatMap_cons, List.filter_append, List.map_append]
    unfold Database.leftJoinHistory at ih
    rw [ih, List.filter_cons]
    have hhead := join_elim_head f hist person target
    by_cases hc : refreshCondSpec hist person f = true
    · rw [if_pos hc] at hhead
      rw [hhead, if_pos hc]
      rfl
    · rw [if_neg hc] at hhead
      rw [hhead, if_neg hc]
      rfl

/-- Claim C9: `find_candidates` returns exactly the rows with matched=1,
uploaded=1, the requested person, a present score and a path never used as a
refresh source, ordered ascending by `|match_score - target_score|`, ties
keeping the original row order (stability), and wrapped as
RefreshCandidates in that order. -/
theorem claim_C9 :
    (∀ (st : DBState) (person : String) (target : ℚ),
      Database.get_refresh_candidates st person target =
        List.insertionSort Database.rowLE
          ((st.files.filter
              (refreshCondSpec st.known_refresh_history person)).map
            (Database.toCandidateRow target))) ∧
    (∀ (st : DBState) (person : String) (target : ℚ),
      List.Sorted Database.rowLE
        (Database.get_refresh_candidates st person target)) ∧
    (∀ (st : DBState) (person : String) (target : ℚ) (a b : CandidateRow),
      a.score_delta = b.score_delta →
      List.Sublist [a, b]
        ((st.files.filter
            (refreshCondSpec st.known_refresh_history person)).map
          (Database.toCandidateRow target)) →
      List.Sublist [a, b]
        (Database.get_refresh_candidates st person target)) ∧
    (∀ (st : DBState) (person : String) (target : ℚ),
      KnownRefreshManager.find_candidates st person target =
        (Database.get_refresh_candidates st person target).map (fun c =>
          ⟨person, c.path, c.match_score, c.score_delta⟩)) := by
  have h1 : ∀ (st : DBState) (person : String) (target : ℚ),
      Database.get_refresh_candidates st person target =
        List.insertionSort Database.rowLE
          ((st.files.filter
              (refreshCondSpec st.known_refresh_history person)).map
            (Database.toCandidateRow target)) := by
    intro st person target
    unfold Database.get_refresh_candidates
    rw [join_elim]
  refine ⟨h1, ?_, ?_, fun st person target => rfl⟩
  · intro st person target
    rw [h1]
    exact List.sorted_insertionSort Database.rowLE _
  · intro st person target a b hab hsub
    rw [h1]
    have hab2 : Database.rowLE a b := le_of_eq hab
    exact List.pair_sublist_insertionSort hab2 hsub

/-- Witness for C9: candidates with scores 0.60, 0.65, 0.70 and target 0.65 —
the two delta-0.05 rows keep their encounter order after sorting. -/
theorem claim_C9_witness :
    List.Sublist
      [⟨"/u/1.jpg", 3/5, some "s1", 1/20⟩, ⟨"/u/3.jpg", 7/10, some "s3", 1/20⟩]
      (Database.get_refresh_candidates
        ⟨[⟨"/u/1.jpg", some "s1", 1, 1, some (3/5), some "Alice"⟩,
          ⟨"/u/2.jpg", some "s2", 1, 1, some (13/20), some "Alice"⟩,
          ⟨"/u/3.jpg", some "s3", 1, 1, some (7/10), some "Alice"⟩], [], [],
          [], [], [], 0, 0⟩
        "Alice" (13/20)) := by
  exact claim_C9.2.2.1
    ⟨[⟨"/u/1.jpg", some "s1", 1, 1, some (3/5), some "Alice"⟩,
      ⟨"/u/2.jpg", some "s2", 1, 1, some (13/20), some "Alice"⟩,
      ⟨"/u/3.jpg", some "s3", 1, 1, some (7/10), some "Alice"⟩], [], [], [],
      [], [], 0, 0⟩
    "Alice" (13/20) ⟨"/u/1.jpg", 3/5, some "s1", 1/20⟩
    ⟨"/u/3.jpg", 7/10, some "s3", 1/20⟩ rfl
    (by with_unfolding_all decide)

end DMAF
